import Mathlib

/-!
Verification of the retrieval-augmented process-analysis core of the
`oportunidade_melhoria` repository (files `process_analyser.py` and `app.py`).

The Python code is shallowly embedded: the `ProcessAnalyzer` constructor and
`analyze_process` become pure Lean functions over an explicit environment
(environment variables, file system) plus an oracle for the external
conversational retrieval chain (embedding provider + LLM).  External calls are
recorded in an event trace so that "fails before any network call" claims can
be stated.  `json.loads` is modelled by an executable JSON parser accepting
what Python's decoder accepts, so that the parse-failure boundary of the
model coincides with `json.JSONDecodeError`; the subsequent `pd.DataFrame`
construction is modelled on parsed lists of objects, the only shape the
response contract and the claims involve.
-/

namespace OportunidadeMelhoria

/-- Process data as passed to `analyze_process`: a list of records, each a
mapping from field names to string values in declaration order
(`process_data: list[dict]`, `process_analyser.py` line 50). -/
abbrev ProcessData := List (List (String × String))

/-- External events observable at the process boundary.  `readIndexFile` is
the local-disk FAISS index load (`FAISS.load_local`); `chainCall` is one
invocation of the conversational retrieval chain, which performs the network
calls to the embedding and LLM providers. -/
inductive ExtEvent where
  | readIndexFile
  | chainCall
deriving DecidableEq, Repr

/-- Whether an event involves a network call to the embedding or LLM
providers. -/
def ExtEvent.isNetwork : ExtEvent → Bool
  | .readIndexFile => false
  | .chainCall => true

/-- Errors raised by the upstream providers inside the retrieval chain
(`process_analyser.py` line 113): rate limiting, timeouts, authentication
rejections, or any other provider exception. -/
inductive ProviderError where
  | rateLimit
  | timeout
  | authFailure
  | other (msg : String)
deriving DecidableEq, Repr

/-- Configuration errors raised by the `ProcessAnalyzer` constructor:
`ValueError` for a missing OpenAI API key (`_setup_api_key`, line 28) and
`FileNotFoundError` for a missing FAISS index (`_load_faiss_index`,
line 32). -/
inductive ConfigError where
  | missingApiKey
  | indexNotFound (path : String)
deriving DecidableEq, Repr

/-- Errors escaping `analyze_process`: an uncaught upstream provider
exception propagating through line 113, or the `json.JSONDecodeError`
raised by `json.loads` at line 116.  The `providerError` constructor is the
embedding of an exception propagating unmodified: the original error is
carried intact. -/
inductive AnalyzeError where
  | providerError (e : ProviderError)
  | parseError
deriving DecidableEq, Repr

/-- The process-wide environment as the constructor sees it: the value of
`OPENAI_API_KEY` in `os.environ`, the value a `.env` file would contribute
via `load_dotenv()` (which does not override an already-set variable), and
the file-existence predicate `os.path.exists`. -/
structure Env where
  envApiKey : Option String
  dotenvApiKey : Option String
  fileExists : String → Bool

/-- Python truthiness of the optional `api_key` argument, as tested by
`if api_key:` in `_setup_api_key` (line 23): an absent argument (`None`) and
the empty string are both falsy. -/
def pythonTruthy : Option String → Bool
  | some s => s != ""
  | none => false

/-- `ProcessAnalyzer._setup_api_key` (lines 22-28): a truthy explicit key is
written into the process environment; otherwise `.env` is loaded (without
overriding an already-set variable, even an empty one) and a `ValueError` is
raised when `os.getenv("OPENAI_API_KEY")` is falsy — that is, when the
variable is unset or set to the empty string, since line 27 tests
`if not os.getenv(...)` with Python truthiness. -/
def setupApiKey (apiKey : Option String) (env : Env) : Except ConfigError Env :=
  if pythonTruthy apiKey then
    Except.ok { env with envApiKey := apiKey }
  else
    let env2 := { env with envApiKey := env.envApiKey <|> env.dotenvApiKey }
    if pythonTruthy env2.envApiKey then Except.ok env2
    else Except.error ConfigError.missingApiKey

/-- The state of a constructed `ProcessAnalyzer` instance: the environment
after `_setup_api_key`, the FAISS index path it loaded, and the in-memory
`chat_history` list (initialized to `[]` at line 19). -/
structure AnalyzerState where
  env : Env
  indexPath : String
  chatHistory : List (String × String)

/-- `ProcessAnalyzer.__init__` (lines 11-19): runs `_setup_api_key`, then
`_load_faiss_index` (which checks `os.path.exists` before loading and raises
`FileNotFoundError` otherwise), then constructs the LLM client and retrieval
chain (no network traffic), and initializes `chat_history = []`.  Returns
the constructed state or the raised configuration error, paired with the
trace of external events performed: only a local index read on success,
nothing at all on failure. -/
def mkAnalyzer (path : String) (apiKey : Option String) (env : Env) :
    Except ConfigError AnalyzerState × List ExtEvent :=
  match setupApiKey apiKey env with
  | Except.error e => (Except.error e, [])
  | Except.ok env2 =>
    if env2.fileExists path then
      (Except.ok ⟨env2, path, []⟩, [ExtEvent.readIndexFile])
    else
      (Except.error (ConfigError.indexNotFound path), [])

/-- The combined-text serialization of one record (`analyze_process`,
lines 63-68): `' '.join(f"{col}: {row[col]}" for col in input_columns)`,
where `input_columns` is the record's field list in declaration order. -/
def combinedText (record : List (String × String)) : String :=
  String.intercalate " " (record.map fun kv => kv.1 ++ ": " ++ kv.2)

/-- The spec's description of the combined text, written as its own
recursion: "field name, colon, value, joined with spaces, fields in a fixed
declaration order".  Used only to compare with `combinedText`, which is
taken from the source. -/
def combinedTextSpec : List (String × String) → String
  | [] => ""
  | [kv] => kv.1 ++ ": " ++ kv.2
  | kv :: rest => kv.1 ++ ": " ++ kv.2 ++ " " ++ combinedTextSpec rest

/-- `process_text` (line 69): the per-row combined texts rendered as the
string of the `combined_text` column.  Pandas joins rows with newlines;
its column padding is immaterial here, as the text is only ever an opaque
part of the prompt handed to the chain oracle. -/
def processText (processData : ProcessData) : String :=
  String.intercalate "\n" (processData.map combinedText)

/-- The analysis prompt (`analyze_process`, lines 71-111): a fixed template
embedding the combined process text.  The fixed Portuguese instructional
boilerplate is abbreviated; every claim treats the prompt as an opaque
function of the process text, which this preserves. -/
def analysisPrompt (text : String) : String :=
  "Voce e um consultor senior especializado em otimizacao de processos. PROCESSO ANALISADO: "
    ++ text
    ++ " Retorne exclusivamente uma lista de dicionarios com os campos oportunidade_melhoria, tarefa e criterio_aceitacao, sem comentarios adicionais."

/-- A parsed JSON value, as produced by `json.loads`.  Numbers are kept as
their literal text: no claim inspects a numeric value, only whether parsing
succeeds and how string-valued record fields pass through. -/
inductive Json where
  | null
  | bool (b : Bool)
  | num (lit : String)
  | str (s : String)
  | arr (elems : List Json)
  | obj (fields : List (String × Json))

/-- A row object, one element of a parsed list of JSON objects: an
association list from field names to JSON values, in emission order.  This
models one row (one dict) of the resulting pandas DataFrame. -/
abbrev Row := List (String × Json)

/-- Drop leading JSON whitespace (space, newline, tab, carriage return —
the whitespace set of Python's JSON scanner). -/
def skipWs : List Char → List Char
  | c :: rest => if c = ' ' ∨ c = '\n' ∨ c = '\t' ∨ c = '\r' then skipWs rest else c :: rest
  | [] => []

/-- The numeric value of one hexadecimal digit, if the character is one. -/
def hexVal (c : Char) : Option Nat :=
  if '0' ≤ c ∧ c ≤ '9' then some (c.toNat - '0'.toNat)
  else if 'a' ≤ c ∧ c ≤ 'f' then some (c.toNat - 'a'.toNat + 10)
  else if 'A' ≤ c ∧ c ≤ 'F' then some (c.toNat - 'A'.toNat + 10)
  else none

/-- The character denoted by a single-character JSON escape, if valid.
`\u` is handled separately; any other escape is invalid, as in Python's
strict decoder. -/
def escChar : Char → Option Char
  | '\"' => some '\"'
  | '\\' => some '\\'
  | '/' => some '/'
  | 'b' => some (Char.ofNat 8)
  | 'f' => some (Char.ofNat 12)
  | 'n' => some '\n'
  | 'r' => some (Char.ofNat 13)
  | 't' => some '\t'
  | _ => none

/-- Consume the body of a JSON string literal up to the closing quote,
interpreting escapes as Python's strict decoder does: the eight
single-character escapes and `\uXXXX` with exactly four hex digits are
accepted, any other backslash sequence is rejected, and raw control
characters (codepoints below 32) are rejected.  A `\uXXXX` escape encoding
a UTF-16 surrogate is accepted, as in Python; the character it decodes to
is immaterial to every claim, none of which involves `\u` escapes. -/
def parseStrBody : Nat → List Char → Option (String × List Char)
  | 0, _ => none
  | Nat.succ f, cs =>
    match cs with
    | [] => none
    | '\"' :: rest => some ("", rest)
    | '\\' :: rest =>
      match rest with
      | [] => none
      | e :: rest2 =>
        match escChar e with
        | some c =>
          match parseStrBody f rest2 with
          | some (s, r) => some (c.toString ++ s, r)
          | none => none
        | none =>
          if e = 'u' then
            match rest2 with
            | h1 :: h2 :: h3 :: h4 :: rest3 =>
              match hexVal h1, hexVal h2, hexVal h3, hexVal h4 with
              | some a, some b, some c, some d =>
                match parseStrBody f rest3 with
                | some (s, r) =>
                  some ((Char.ofNat (a * 4096 + b * 256 + c * 16 + d)).toString ++ s, r)
                | none => none
              | _, _, _, _ => none
            | _ => none
          else none
    | c :: rest =>
      if c.toNat < 32 then none
      else
        match parseStrBody f rest with
        | some (s, r) => some (c.toString ++ s, r)
        | none => none

/-- Split off leading decimal digits. -/
def takeDigits : List Char → List Char × List Char
  | [] => ([], [])
  | c :: rest =>
    if c.isDigit then
      let (ds, r) := takeDigits rest
      (c :: ds, r)
    else ([], c :: rest)

/-- Consume an optional JSON fraction part: `.` followed by at least one
digit; on anything else nothing is consumed, as with Python's number
regex. -/
def takeFrac (cs : List Char) : List Char × List Char :=
  match cs with
  | '.' :: r =>
    match takeDigits r with
    | ([], _) => ([], '.' :: r)
    | (ds, r2) => ('.' :: ds, r2)
  | _ => ([], cs)

/-- Consume an optional JSON exponent part: `e`/`E`, an optional sign, one
or more digits; on anything else nothing is consumed. -/
def takeExp (cs : List Char) : List Char × List Char :=
  match cs with
  | [] => ([], [])
  | c :: r =>
    if c = 'e' ∨ c = 'E' then
      match r with
      | s :: r2 =>
        if s = '+' ∨ s = '-' then
          match takeDigits r2 with
          | ([], _) => ([], c :: r)
          | (ds, r3) => (c :: s :: ds, r3)
        else
          match takeDigits r with
          | ([], _) => ([], c :: r)
          | (ds, r3) => (c :: ds, r3)
      | [] => ([], c :: r)
    else ([], c :: r)

/-- Parse a JSON number literal: an optional minus, an integer part with no
leading zero, then optional fraction and exponent — the grammar of Python's
JSON number regex, which matches the longest valid literal and leaves the
rest in place (so `1.` parses as `1` leaving `.`, an error at the caller,
exactly as in Python). -/
def parseNumber (cs : List Char) : Option (String × List Char) :=
  let (negPart, cs1) :=
    match cs with
    | '-' :: r => (['-'], r)
    | _ => (([] : List Char), cs)
  match cs1 with
  | '0' :: r =>
    let (fp, r2) := takeFrac r
    let (ep, r3) := takeExp r2
    some (String.mk (negPart ++ '0' :: (fp ++ ep)), r3)
  | c :: r =>
    if c.isDigit then
      let (ds, r1) := takeDigits r
      let (fp, r2) := takeFrac r1
      let (ep, r3) := takeExp r2
      some (String.mk (negPart ++ c :: (ds ++ fp ++ ep)), r3)
    else none
  | [] => none

/-- Strip an expected literal from the front of the input. -/
def stripLit : List Char → List Char → Option (List Char)
  | [], cs => some cs
  | l :: ls, c :: cs => if c = l then stripLit ls cs else none
  | _ :: _, [] => none

/-- Resolve duplicate object keys as Python's dict construction does:
first-occurrence order, last value wins. -/
def dedupLastWins (l : List (String × Json)) : List (String × Json) :=
  l.foldl
    (fun acc kv =>
      if acc.any (fun p => p.1 == kv.1) then
        acc.map (fun p => if p.1 == kv.1 then (p.1, kv.2) else p)
      else acc ++ [kv])
    []

mutual

/-- Parse one JSON value starting at a non-whitespace character: object,
array, string, number, `true`/`false`/`null`, or the non-standard
`NaN`/`Infinity`/`-Infinity` constants Python's decoder accepts by
default.  The fuel bounds recursion depth; the top-level call supplies
more fuel than any input of its length can consume. -/
def parseValue (fuel : Nat) (cs : List Char) : Option (Json × List Char) :=
  match fuel with
  | 0 => none
  | Nat.succ f =>
    match cs with
    | [] => none
    | '\x7b' :: r =>
      match skipWs r with
      | '\x7d' :: r2 => some (Json.obj [], r2)
      | r2 =>
        match parseMembers f [] r2 with
        | some (ms, r3) => some (Json.obj (dedupLastWins ms), r3)
        | none => none
    | '[' :: r =>
      match skipWs r with
      | ']' :: r2 => some (Json.arr [], r2)
      | r2 =>
        match parseElems f [] r2 with
        | some (es, r3) => some (Json.arr es, r3)
        | none => none
    | '\"' :: r =>
      match parseStrBody (r.length + 1) r with
      | some (s, r2) => some (Json.str s, r2)
      | none => none
    | '-' :: 'I' :: _ =>
      match stripLit ['-', 'I', 'n', 'f', 'i', 'n', 'i', 't', 'y'] cs with
      | some r => some (Json.num "-Infinity", r)
      | none => none
    | 't' :: _ =>
      match stripLit ['t', 'r', 'u', 'e'] cs with
      | some r => some (Json.bool true, r)
      | none => none
    | 'f' :: _ =>
      match stripLit ['f', 'a', 'l', 's', 'e'] cs with
      | some r => some (Json.bool false, r)
      | none => none
    | 'n' :: _ =>
      match stripLit ['n', 'u', 'l', 'l'] cs with
      | some r => some (Json.null, r)
      | none => none
    | 'N' :: _ =>
      match stripLit ['N', 'a', 'N'] cs with
      | some r => some (Json.num "NaN", r)
      | none => none
    | 'I' :: _ =>
      match stripLit ['I', 'n', 'f', 'i', 'n', 'i', 't', 'y'] cs with
      | some r => some (Json.num "Infinity", r)
      | none => none
    | _ =>
      match parseNumber cs with
      | some (lit, r) => some (Json.num lit, r)
      | none => none

/-- Parse the members of a non-empty object: `"key": value` pairs separated
by commas, closed by a brace.  A trailing comma or a non-string key is an
error, as in Python. -/
def parseMembers (fuel : Nat) (acc : List (String × Json)) (cs : List Char) :
    Option (List (String × Json) × List Char) :=
  match fuel with
  | 0 => none
  | Nat.succ f =>
    match skipWs cs with
    | '\"' :: r =>
      match parseStrBody (r.length + 1) r with
      | none => none
      | some (k, r2) =>
        match skipWs r2 with
        | ':' :: r3 =>
          match parseValue f (skipWs r3) with
          | none => none
          | some (v, r4) =>
            match skipWs r4 with
            | ',' :: r5 => parseMembers f ((k, v) :: acc) r5
            | '\x7d' :: r5 => some (((k, v) :: acc).reverse, r5)
            | _ => none
        | _ => none
    | _ => none

/-- Parse the elements of a non-empty array: values separated by commas,
closed by a bracket.  A trailing comma is an error, as in Python. -/
def parseElems (fuel : Nat) (acc : List Json) (cs : List Char) :
    Option (List Json × List Char) :=
  match fuel with
  | 0 => none
  | Nat.succ f =>
    match parseValue f (skipWs cs) with
    | none => none
    | some (v, r) =>
      match skipWs r with
      | ',' :: r2 => parseElems f (v :: acc) r2
      | ']' :: r2 => some ((v :: acc).reverse, r2)
      | _ => none

end

/-- Models `json.loads` (`analyze_process`, line 116): one JSON value,
surrounded by optional whitespace and nothing else.  Accepts what Python's
decoder accepts — every value shape, string escapes, the default
non-standard constants — and returns `none` exactly where Python raises
`json.JSONDecodeError`: malformed syntax, surrounding prose, extra data,
invalid escapes, raw control characters inside strings. -/
def jsonLoads (s : String) : Option Json :=
  match parseValue (2 * s.data.length + 2) (skipWs s.data) with
  | none => none
  | some (j, rest) => if skipWs rest = [] then some j else none

/-- View a parsed JSON value as an object's field list, when it is one. -/
def asObj : Json → Option (List (String × Json))
  | Json.obj fields => some fields
  | _ => none

/-- View a parsed JSON value as a list of record objects, when it is one:
this is the shape on which `pd.DataFrame` (line 117) builds the
one-row-per-object DataFrame the rest of the app consumes.  Any other
parsed shape is not a record list. -/
def asRecordList (j : Json) : Option (List Row) :=
  match j with
  | Json.arr elems => elems.mapM asObj
  | _ => none

/-- The result of one `analyze_process` call.  `raised` is an escaping
exception: an upstream provider error propagating uncaught, or the
`json.JSONDecodeError` of line 116 — in either case no DataFrame exists and
zero rows are produced.  `frame` is the DataFrame `pd.DataFrame` builds
from a parsed list of objects: one row per object, values passed through
untouched (this construction never raises).  `nonRecordFrame` covers a
parsed JSON value of any other shape handed to `pd.DataFrame`: pandas then
builds a positionally-labelled frame or raises `ValueError` depending on
the shape; no claim depends on which, so the model records only the parsed
value without asserting success or failure. -/
inductive CallResult where
  | raised (e : AnalyzeError)
  | frame (rows : List Row)
  | nonRecordFrame (j : Json)

/-- The outcome of one `analyze_process` call: the call result, the
instance state after the call, and the external events performed. -/
structure AnalyzeOutcome where
  result : CallResult
  state : AnalyzerState
  events : List ExtEvent

/-- `ProcessAnalyzer.analyze_process` (lines 50-118): builds the combined
text and prompt, invokes the retrieval chain exactly once with the prompt
and the instance's `chat_history` (line 113-115), parses the answer with
`json.loads`, and wraps the parsed list as the resulting DataFrame rows.
The chain is an oracle mapping (question, chat history) to either the
answer text or an upstream provider error; a provider error propagates
uncaught, as `analyze_process` contains no `try`/`except`.  The returned
state is the instance state after the call: the source never appends to
`self.chat_history`, so it is returned unchanged. -/
def analyzeProcess (st : AnalyzerState)
    (chain : String → List (String × String) → Except ProviderError String)
    (processData : ProcessData) : AnalyzeOutcome :=
  match chain (analysisPrompt (processText processData)) st.chatHistory with
  | Except.error e => ⟨CallResult.raised (AnalyzeError.providerError e), st, [ExtEvent.chainCall]⟩
  | Except.ok answer =>
    match jsonLoads answer with
    | none => ⟨CallResult.raised AnalyzeError.parseError, st, [ExtEvent.chainCall]⟩
    | some j =>
      match asRecordList j with
      | some rows => ⟨CallResult.frame rows, st, [ExtEvent.chainCall]⟩
      | none => ⟨CallResult.nonRecordFrame j, st, [ExtEvent.chainCall]⟩

/-- Whether a row has field `f` populated with a non-empty string. -/
def fieldFilled (row : Row) (f : String) : Bool :=
  match List.lookup f row with
  | some (Json.str v) => v != ""
  | _ => false

/-- Whether a row has all three required fields populated with non-empty
strings. -/
def rowComplete (row : Row) : Bool :=
  fieldFilled row "oportunidade_melhoria" && fieldFilled row "tarefa"
    && fieldFilled row "criterio_aceitacao"

/-- A well-formed structured LLM answer: it parses as the required list of
objects and every object carries the three required fields with non-empty
string values. -/
def wellFormedAnswer (answer : String) : Bool :=
  match jsonLoads answer with
  | some j =>
    match asRecordList j with
    | some rows => rows.all rowComplete
    | none => false
  | none => false

/-- Whether an input record field is present with a non-empty value. -/
def strFieldFilled (record : List (String × String)) (f : String) : Bool :=
  match List.lookup f record with
  | some v => v != ""
  | none => false

/-- Whether a record carries all six mandatory process fields
(`ramo_empresa`, `direcionadores`, `nome_processo`, `atividade`, `evento`,
`causa`) with non-empty values. -/
def recordMandatoryFilled (record : List (String × String)) : Bool :=
  strFieldFilled record "ramo_empresa" && strFieldFilled record "direcionadores"
    && strFieldFilled record "nome_processo" && strFieldFilled record "atividade"
    && strFieldFilled record "evento" && strFieldFilled record "causa"

/-- The ten text inputs of the `oportunidade_melhoria_form` plus the
optional uploaded transcript (`app.py`, lines 144-164). -/
structure FormInput where
  ramoEmpresa : String
  direcionadores : String
  nomeProcesso : String
  atividade : String
  evento : String
  causa : String
  operacionaAtividade : String
  sistemaRelacionado : String
  solucaoGap : String
  outroGap : String
  fileContent : Option String

/-- The submission gate of `render_oportunidade_melhoria` (`app.py`,
line 170): `if ramo_empresa and direcionadores and nome_processo and
atividade and evento and causa`, i.e. all six mandatory strings are
truthy (non-empty). -/
def mandatoryFieldsFilled (f : FormInput) : Bool :=
  f.ramoEmpresa != "" && f.direcionadores != "" && f.nomeProcesso != ""
    && f.atividade != "" && f.evento != "" && f.causa != ""

/-- The process record the workflow builds from the form (`app.py`,
lines 172-184): an eleven-field mapping in declaration order, the
transcript defaulting to the empty string. -/
def buildProcesso (f : FormInput) : List (String × String) :=
  [("ramo_empresa", f.ramoEmpresa),
   ("direcionadores", f.direcionadores),
   ("nome_processo", f.nomeProcesso),
   ("atividade", f.atividade),
   ("evento", f.evento),
   ("causa", f.causa),
   ("operaciona_atividade", f.operacionaAtividade),
   ("sistema_relacionado", f.sistemaRelacionado),
   ("solucao_gap", f.solucaoGap),
   ("outro_gap", f.outroGap),
   ("transcrição", f.fileContent.getD "")]

/-- The form-submission branch of `render_oportunidade_melhoria` (`app.py`,
lines 169-207): when all six mandatory fields are filled, the workflow
invokes `analyze_single_process` on the singleton record list (`some`);
otherwise it shows a warning and the analyzer is never invoked (`none`). -/
def submitAction (f : FormInput) : Option ProcessData :=
  if mandatoryFieldsFilled f then some [buildProcesso f] else none

/-- A sample environment with a configured credential and an existing index
file, for concrete evaluations. -/
def sampleEnv : Env :=
  { envApiKey := some "sk-test", dotenvApiKey := none, fileExists := fun _ => true }

/-- A sample constructed analyzer instance. -/
def sampleState : AnalyzerState :=
  { env := sampleEnv, indexPath := "process_index.faiss", chatHistory := [] }

/-- The concrete record of the spec's concrete scenario: `ramo_empresa`
"Moda", `direcionadores` "Aumentar lucro", `nome_processo` "Otimização",
`atividade` "Otimização de processo", `causa` "Aumento do preço dos
insumos", remaining fields arbitrary. -/
def sampleRecord : List (String × String) :=
  [("ramo_empresa", "Moda"), ("direcionadores", "Aumentar lucro"),
   ("nome_processo", "Otimização"), ("atividade", "Otimização de processo"),
   ("evento", "Reunião mensal"), ("causa", "Aumento do preço dos insumos"),
   ("operaciona_atividade", ""), ("sistema_relacionado", ""),
   ("solucao_gap", ""), ("outro_gap", ""), ("transcrição", "")]

/-- A sample single-record process-data argument. -/
def sampleData : ProcessData := [sampleRecord]

/-- A record with every mandatory field empty, used to evidence that the
core performs no field-level validation. -/
def emptyFieldsData : ProcessData :=
  [[("ramo_empresa", ""), ("direcionadores", ""), ("nome_processo", ""),
    ("atividade", ""), ("evento", ""), ("causa", "")]]

/-- An environment with no credential anywhere. -/
def emptyEnv : Env :=
  { envApiKey := none, dotenvApiKey := none, fileExists := fun _ => true }

/-- A fully filled sample form submission. -/
def sampleForm : FormInput :=
  { ramoEmpresa := "Moda", direcionadores := "Aumentar lucro",
    nomeProcesso := "Otimização", atividade := "Otimização de processo",
    evento := "Reunião mensal", causa := "Aumento do preço dos insumos",
    operacionaAtividade := "", sistemaRelacionado := "", solucaoGap := "",
    outroGap := "", fileContent := none }

/-- The mocked LLM response of the spec's concrete scenario, exactly
one object with the three required fields. -/
def mockedResponse : String :=
  "[\x7b\"oportunidade_melhoria\":\"A\",\"tarefa\":\"B\",\"criterio_aceitacao\":\"C\"\x7d]"

/-- A mocked LLM response carrying extra surrounding commentary, hence not
parseable as the required structured list. -/
def proseResponse : String :=
  "Claro! Aqui esta a lista pedida: [\x7b\"oportunidade_melhoria\": \"A\"\x7d]"

/-- A mocked LLM response that is valid JSON but uses wrong field names. -/
def wrongFieldsResponse : String := "[\x7b\"foo\": \"bar\"\x7d]"

/-- Join a list of strings, writing the separator before each element. -/
def joinTail (s : String) : List String → String
  | [] => ""
  | a :: as => s ++ a ++ joinTail s as

theorem intercalate_go_eq (s : String) (l : List String) (acc : String) :
    String.intercalate.go acc s l = acc ++ joinTail s l := by
  induction l generalizing acc with
  | nil => simp [String.intercalate.go, joinTail]
  | cons a as ih => simp [String.intercalate.go, joinTail, ih, String.append_assoc]

theorem intercalate_cons (s a : String) (l : List String) :
    String.intercalate s (a :: l) = a ++ joinTail s l := by
  simp [String.intercalate, intercalate_go_eq]

/-- `analyze_process` never writes to `self.chat_history`: the instance
state after a call is the state before it. -/
theorem analyzeProcess_state (st : AnalyzerState)
    (chain : String → List (String × String) → Except ProviderError String)
    (pd : ProcessData) : (analyzeProcess st chain pd).state = st := by
  unfold analyzeProcess
  cases chain (analysisPrompt (processText pd)) st.chatHistory with
  | error e => rfl
  | ok answer =>
    cases h : jsonLoads answer with
    | none => simp [h]
    | some j => cases h2 : asRecordList j <;> simp [h, h2]

/-- C4: the combined-text serialization built by `analyze_process` is the
deterministic "field name, colon, value, space-joined, fields in
declaration order" representation described by the spec: `combinedText`
(from the source) coincides with `combinedTextSpec` (from the spec's
words) on every record, and being a pure function of the record it yields
byte-identical output on every serialization of the same record. -/
theorem combinedText_deterministic :
    ∀ record : List (String × String), combinedText record = combinedTextSpec record := by
  intro record
  induction record with
  | nil => rfl
  | cons kv rest ih =>
    cases rest with
    | nil => simp [combinedText, combinedTextSpec, intercalate_cons, joinTail]
    | cons kv2 rest2 =>
      simp only [combinedText, List.map_cons, intercalate_cons, joinTail] at ih ⊢
      rw [combinedTextSpec]
      · rw [← ih]
        simp [String.append_assoc]
      · simp

/-- C1: for every process record with all six mandatory fields non-empty
and every well-formed structured LLM answer (a parseable list whose every
object carries the three required fields with non-empty values),
`analyze_process` returns exactly the parsed rows, every one of which has
all three fields populated with non-empty strings. -/
theorem analyze_wellformed_rows (st : AnalyzerState)
    (record : List (String × String)) (answer : String)
    (_hmand : recordMandatoryFilled record = true)
    (hwf : wellFormedAnswer answer = true) :
    ∃ (j : Json) (items : List Row), jsonLoads answer = some j ∧
      asRecordList j = some items ∧
      (analyzeProcess st (fun _ _ => Except.ok answer) [record]).result
        = CallResult.frame items ∧
      items.all rowComplete = true := by
  cases h : jsonLoads answer with
  | none => simp [wellFormedAnswer, h] at hwf
  | some j =>
    cases h2 : asRecordList j with
    | none => simp [wellFormedAnswer, h, h2] at hwf
    | some items =>
      simp only [wellFormedAnswer, h, h2] at hwf
      exact ⟨j, items, rfl, h2, by simp [analyzeProcess, h, h2], hwf⟩

/-- C1 witness: the theorem applied to the concrete sample record and the
concrete mocked response. -/
theorem analyze_wellformed_rows_witness :
    ∃ (j : Json) (items : List Row), jsonLoads mockedResponse = some j ∧
      asRecordList j = some items ∧
      (analyzeProcess sampleState (fun _ _ => Except.ok mockedResponse) [sampleRecord]).result
        = CallResult.frame items ∧
      items.all rowComplete = true :=
  analyze_wellformed_rows sampleState sampleRecord mockedResponse (by decide) (by decide)

/-- C2 counterexample: a response that is valid JSON but uses a wrong field
name is not rejected: the call succeeds and returns one row with that field,
refuting "wrong field names ⇒ fails the whole call and returns zero
rows". -/
theorem analyze_wrong_fields_accepted :
    (analyzeProcess sampleState (fun _ _ => Except.ok wrongFieldsResponse) sampleData).result
      = CallResult.frame [[("foo", Json.str "bar")]] := by rfl

/-- C2 (amended): for every LLM response that is not parseable as JSON —
malformed syntax or extra surrounding commentary — `analyze_process`
raises the decode error, so the whole call fails and no rows are
produced. -/
theorem analyze_unparseable_fails (st : AnalyzerState) (pd : ProcessData)
    (answer : String) (h : jsonLoads answer = none) :
    (analyzeProcess st (fun _ _ => Except.ok answer) pd).result
      = CallResult.raised AnalyzeError.parseError := by
  simp [analyzeProcess, h]

/-- C2 witness: the amended theorem applied to the concrete response with
extra surrounding commentary. -/
theorem analyze_unparseable_fails_witness :
    (analyzeProcess sampleState (fun _ _ => Except.ok proseResponse) sampleData).result
      = CallResult.raised AnalyzeError.parseError :=
  analyze_unparseable_fails sampleState sampleData proseResponse (by rfl)

/-- C3: a freshly constructed analyzer does start with an empty
conversation history, but `analyze_process` never appends to it, so after
two sequential calls on the same instance the history still has length 0,
not 2 as the spec states. -/
theorem chat_history_stays_empty (env : Env) (path : String) (apiKey : Option String)
    (chain1 chain2 : String → List (String × String) → Except ProviderError String)
    (pd1 pd2 : ProcessData) :
    ((mkAnalyzer path apiKey env).1.toOption.all fun st => st.chatHistory.isEmpty) = true ∧
    (analyzeProcess (analyzeProcess ⟨env, path, []⟩ chain1 pd1).state chain2 pd2).state.chatHistory.length
      = 0 := by
  constructor
  · unfold mkAnalyzer
    cases h : setupApiKey apiKey env with
    | error e => simp [Except.toOption, Option.all]
    | ok env2 =>
      by_cases hf : env2.fileExists path
      · simp [hf, Except.toOption, Option.all]
      · simp [hf, Except.toOption, Option.all]
  · simp [analyzeProcess_state]

/-- C5: for every index path at which no index file exists (and a
credential configured, so that construction reaches the index check),
constructing the analyzer fails with the index-not-found error and performs
no external event at all — in particular no network call to the embedding
or LLM providers. -/
theorem mkAnalyzer_missing_index (path : String) (apiKey : Option String) (env : Env)
    (hcred : pythonTruthy apiKey = true ∨ pythonTruthy (env.envApiKey <|> env.dotenvApiKey) = true)
    (hmiss : env.fileExists path = false) :
    (mkAnalyzer path apiKey env).1 = Except.error (ConfigError.indexNotFound path) ∧
    (mkAnalyzer path apiKey env).2 = [] := by
  by_cases ht : pythonTruthy apiKey = true
  · simp [mkAnalyzer, setupApiKey, ht, hmiss]
  · have ht2 : pythonTruthy apiKey = false := by simpa using ht
    rcases hcred with h | h
    · rw [ht2] at h; exact absurd h (by simp)
    · simp [mkAnalyzer, setupApiKey, ht2, h, hmiss]

/-- C5 witness: the theorem applied to a concrete environment whose file
system has no file anywhere. -/
theorem mkAnalyzer_missing_index_witness :
    (mkAnalyzer "missing.faiss" none
        ⟨some "sk-test", none, fun _ => false⟩).1
      = Except.error (ConfigError.indexNotFound "missing.faiss") ∧
    (mkAnalyzer "missing.faiss" none ⟨some "sk-test", none, fun _ => false⟩).2 = [] :=
  mkAnalyzer_missing_index "missing.faiss" none ⟨some "sk-test", none, fun _ => false⟩
    (Or.inr (by decide)) (by decide)

/-- C6: with no explicit credential and `OPENAI_API_KEY` unset both in the
process environment and in the `.env` file, construction fails with the
missing-credential error and performs no external event at all. -/
theorem mkAnalyzer_missing_credential (path : String) (env : Env)
    (h1 : env.envApiKey = none) (h2 : env.dotenvApiKey = none) :
    (mkAnalyzer path none env).1 = Except.error ConfigError.missingApiKey ∧
    (mkAnalyzer path none env).2 = [] := by
  simp [mkAnalyzer, setupApiKey, pythonTruthy, h1, h2]

/-- C6 witness: the theorem applied to the concrete credential-free
environment. -/
theorem mkAnalyzer_missing_credential_witness :
    (mkAnalyzer "process_index.faiss" none emptyEnv).1
      = Except.error ConfigError.missingApiKey ∧
    (mkAnalyzer "process_index.faiss" none emptyEnv).2 = [] :=
  mkAnalyzer_missing_credential "process_index.faiss" emptyEnv (by decide) (by decide)

/-- C7: the workflow invokes the analyzer only when all six mandatory form
fields are non-empty, and the core performs no field-level validation of
its own: for any process data whatsoever — mandatory fields empty
included — a parseable answer yields a successful result. -/
theorem mandatory_gate_and_no_core_validation :
    (∀ f : FormInput, (submitAction f).isSome = true → mandatoryFieldsFilled f = true) ∧
    (∀ (st : AnalyzerState) (pd : ProcessData) (answer : String) (j : Json) (items : List Row),
      jsonLoads answer = some j → asRecordList j = some items →
      (analyzeProcess st (fun _ _ => Except.ok answer) pd).result = CallResult.frame items) := by
  constructor
  · intro f h
    by_cases hm : mandatoryFieldsFilled f = true
    · exact hm
    · rw [submitAction, if_neg (by simpa using hm)] at h
      exact absurd h (by simp)
  · intro st pd answer j items h h2
    simp [analyzeProcess, h, h2]

/-- C7 witness: the gate holds at the filled sample form, and the core
accepts a record whose mandatory fields are all empty. -/
theorem mandatory_gate_and_no_core_validation_witness :
    mandatoryFieldsFilled sampleForm = true ∧
    (analyzeProcess sampleState (fun _ _ => Except.ok mockedResponse) emptyFieldsData).result
      = CallResult.frame
          [[("oportunidade_melhoria", Json.str "A"), ("tarefa", Json.str "B"),
            ("criterio_aceitacao", Json.str "C")]] :=
  ⟨mandatory_gate_and_no_core_validation.1 sampleForm (by decide),
   mandatory_gate_and_no_core_validation.2 sampleState emptyFieldsData mockedResponse
     (Json.arr [Json.obj [("oportunidade_melhoria", Json.str "A"), ("tarefa", Json.str "B"),
       ("criterio_aceitacao", Json.str "C")]])
     [[("oportunidade_melhoria", Json.str "A"), ("tarefa", Json.str "B"),
       ("criterio_aceitacao", Json.str "C")]]
     (by rfl) (by rfl)⟩

/-- C8: on the spec's concrete record and a mocked response of exactly one
object with fields "A", "B", "C", `analyze_process` returns exactly one row
equal to ("A", "B", "C"). -/
theorem analyze_concrete_scenario :
    (analyzeProcess sampleState (fun _ _ => Except.ok mockedResponse) sampleData).result
      = CallResult.frame
          [[("oportunidade_melhoria", Json.str "A"), ("tarefa", Json.str "B"),
            ("criterio_aceitacao", Json.str "C")]] := by
  rfl

/-- C9: an upstream provider error raised during the chain call escapes
`analyze_process` carrying the original error unmodified, and every call —
whatever the chain does — performs exactly one chain invocation: there is
no retry and no swallowed failure. -/
theorem analyze_provider_error_propagated (st : AnalyzerState) (pd : ProcessData)
    (e : ProviderError)
    (chain : String → List (String × String) → Except ProviderError String) :
    (analyzeProcess st (fun _ _ => Except.error e) pd).result
      = CallResult.raised (AnalyzeError.providerError e) ∧
    (analyzeProcess st chain pd).events = [ExtEvent.chainCall] := by
  constructor
  · rfl
  · unfold analyzeProcess
    cases chain (analysisPrompt (processText pd)) st.chatHistory with
    | error e2 => rfl
    | ok answer =>
      cases h : jsonLoads answer with
      | none => simp [h]
      | some j => cases h2 : asRecordList j <;> simp [h, h2]

/-- C10: an empty-string explicit `api_key` is falsy, so construction
behaves exactly as if no key were provided — including the
missing-credential error when the environment has none — while a non-empty
explicit key is written into the process-wide environment variable as a
side effect. -/
theorem setup_api_key_empty_and_mutation (env : Env) (s : String) :
    setupApiKey (some "") env = setupApiKey none env ∧
    (s ≠ "" → setupApiKey (some s) env = Except.ok { env with envApiKey := some s }) ∧
    (env.envApiKey = none → env.dotenvApiKey = none →
      setupApiKey (some "") env = Except.error ConfigError.missingApiKey) := by
  refine ⟨rfl, ?_, ?_⟩
  · intro hs
    have h : pythonTruthy (some s) = true := by simp [pythonTruthy, hs]
    simp [setupApiKey, h]
  · intro h1 h2
    simp [setupApiKey, pythonTruthy, h1, h2]

/-- C10 witness: the theorem applied to the sample and credential-free
environments with the concrete key "sk-test". -/
theorem setup_api_key_empty_and_mutation_witness :
    setupApiKey (some "") sampleEnv = setupApiKey none sampleEnv ∧
    setupApiKey (some "sk-test") sampleEnv
      = Except.ok { sampleEnv with envApiKey := some "sk-test" } ∧
    setupApiKey (some "") emptyEnv = Except.error ConfigError.missingApiKey :=
  ⟨(setup_api_key_empty_and_mutation sampleEnv "sk-test").1,
   (setup_api_key_empty_and_mutation sampleEnv "sk-test").2.1 (by decide),
   (setup_api_key_empty_and_mutation emptyEnv "sk-test").2.2 (by decide) (by decide)⟩

end OportunidadeMelhoria
